import Mathlib

/-!
Verification of the latency-metrics utilities in this repository.

The repository has two source files:
* `stream_latency.py` — a CLI tool measuring streaming latency; its only
  computational routine is `compute_metrics`, plus a credential check at
  the top of `measure_latency`.
* `apache_pinot_explanation.py` — returns a fixed descriptive string.

Python floats (monotonic-clock readings) are modelled as exact rationals;
`os.getenv` is modelled as a function `String → Option String`; the
network stream and the clock are external collaborators, so the readings
they would produce (`start`, `timestamps`, `last`) are taken as
parameters of the embedded `measure_latency`.
-/

namespace AvHome

/-- Embedding of the `LatencyMetrics` dataclass of `stream_latency.py`. -/
structure LatencyMetrics where
  ttft : ℚ
  tbt : ℚ
  total_latency : ℚ
  token_count : ℕ
  deriving Repr, DecidableEq

/-- Embedding of `compute_metrics` from `stream_latency.py`.
Python list indexing `timestamps[i]` is in bounds at every use site
(`timestamps[0]` only when `token_count ≠ 0`, `timestamps[i]` and
`timestamps[i-1]` for `i` in `range(1, token_count)`), so it is rendered
with `List.getD` (default `0`).  Python `range(1, token_count)` is
`List.range' 1 (token_count - 1)`. -/
def compute_metrics (start : ℚ) (timestamps : List ℚ) (last : ℚ) : LatencyMetrics :=
  let token_count := timestamps.length
  let ttft : ℚ := if token_count ≠ 0 then timestamps.getD 0 0 - start else 0
  let tbt : ℚ :=
    if token_count ≤ 1 then 0
    else
      let gaps := (List.range' 1 (token_count - 1)).map
        (fun i => timestamps.getD i 0 - timestamps.getD (i - 1) 0)
      gaps.sum / (gaps.length : ℚ)
  let total_latency := last - start
  { ttft := ttft, tbt := tbt, total_latency := total_latency, token_count := token_count }

/-- Division with an explicit zero check, used to show that the division
in `compute_metrics` is never reached with a zero divisor. -/
def checkedDiv (a b : ℚ) : Option ℚ :=
  if b = 0 then none else some (a / b)

/-- `compute_metrics` with the division guarded: it returns `none`
exactly when the Python code would divide by zero. -/
def compute_metrics_checked (start : ℚ) (timestamps : List ℚ) (last : ℚ) :
    Option LatencyMetrics :=
  let token_count := timestamps.length
  let ttft : ℚ := if token_count ≠ 0 then timestamps.getD 0 0 - start else 0
  let tbtO : Option ℚ :=
    if token_count ≤ 1 then some 0
    else
      let gaps := (List.range' 1 (token_count - 1)).map
        (fun i => timestamps.getD i 0 - timestamps.getD (i - 1) 0)
      checkedDiv gaps.sum (gaps.length : ℚ)
  tbtO.map fun tbt =>
    { ttft := ttft, tbt := tbt, total_latency := last - start, token_count := token_count }

/-- Truthiness of Python `not api_key` for `api_key : Optional[str]`:
true for `None` and for the empty string. -/
def pyFalsy : Option String → Bool
  | none => true
  | some s => s == ""

/-- Embedding of the part of `measure_latency` from `stream_latency.py`
that the program itself controls.  `env` models `os.getenv`; the clock
readings the collector loop would record are parameters, and the single
`raise RuntimeError` is an `Except.error` carrying its message. -/
def measure_latency (env : String → Option String)
    (start : ℚ) (timestamps : List ℚ) (last : ℚ) : Except String LatencyMetrics :=
  let api_key := env "OPENAI_API_KEY"
  if pyFalsy api_key then
    Except.error "OPENAI_API_KEY environment variable is not set."
  else
    Except.ok (compute_metrics start timestamps last)

/-- Embedding of `explain_apache_pinot` from `apache_pinot_explanation.py`:
a constant string (the source function takes no inputs and reads no state). -/
def explain_apache_pinot : String :=
  "Apache Pinot is a real-time distributed OLAP datastore built for " ++
  "serving low-latency analytics on event streams and batch data. " ++
  "It powers user-facing dashboards and anomaly detection by combining " ++
  "columnar storage, smart indexing, and pre-aggregation to answer " ++
  "queries quickly at scale."

/-! ## Helper lemmas -/

/-- The telescoping sum of consecutive differences over `range' 1 m`. -/
lemma sum_range'_sub (f : ℕ → ℚ) (m : ℕ) :
    ((List.range' 1 m).map (fun i => f i - f (i - 1))).sum = f m - f 0 := by
  induction m with
  | zero => simp
  | succ m ih =>
      rw [List.range'_concat, List.map_append, List.sum_append, ih]
      have h2 : 1 + 1 * m = m + 1 := by omega
      simp only [List.map_cons, List.map_nil, List.sum_cons, List.sum_nil, h2,
        Nat.add_sub_cancel]
      ring

/-- In a `≤`-chain, consecutive `getD` entries are ordered. -/
lemma chain'_getD_le (ts : List ℚ) (h : List.Chain' (· ≤ ·) ts)
    (i : ℕ) (h1 : 1 ≤ i) (h2 : i < ts.length) :
    ts.getD (i - 1) 0 ≤ ts.getD i 0 := by
  have hi1 : i - 1 < ts.length := Nat.lt_of_le_of_lt (Nat.sub_le i 1) h2
  rw [List.getD_eq_getElem ts 0 hi1, List.getD_eq_getElem ts 0 h2]
  have := List.chain'_iff_get.mp h (i - 1) (by omega)
  simpa [List.get_eq_getElem, Nat.sub_add_cancel h1] using this

/-- A `≤`-chain's head is at most its last element. -/
lemma chain'_head_le_getLast :
    ∀ (a : ℚ) (l : List ℚ), List.Chain' (· ≤ ·) (a :: l) →
      a ≤ (a :: l).getLast (by simp)
  | _, [], _ => le_refl _
  | a, b :: l, h => by
      rw [List.getLast_cons (by simp)]
      exact le_trans (List.chain'_cons.mp h).1
        (chain'_head_le_getLast b l (List.chain'_cons.mp h).2)

/-- The `tbt` field is nonnegative whenever the timestamps are
non-decreasing. -/
lemma tbt_nonneg (start last : ℚ) (ts : List ℚ)
    (h : List.Chain' (· ≤ ·) ts) :
    0 ≤ (compute_metrics start ts last).tbt := by
  unfold compute_metrics
  by_cases hle : ts.length ≤ 1
  · simp [hle]
  · simp only [hle, if_false]
    apply div_nonneg
    · apply List.sum_nonneg
      intro x hx
      simp only [List.mem_map, List.mem_range'_1] at hx
      obtain ⟨i, ⟨hi1, hi2⟩, rfl⟩ := hx
      have h2 : i < ts.length := by omega
      exact sub_nonneg.mpr (chain'_getD_le ts h i hi1 h2)
    · positivity

/-! ## Claims -/

/-- C1: for every `start`, `end` and `timestamps`, `compute_metrics`
returns `tbt` (`mean_inter_token_gap`) equal to `0` when the length of
`timestamps` is at most `1`, and otherwise equal to the arithmetic mean
of the consecutive differences `timestamps[i] - timestamps[i-1]` for `i`
from `1` to `length - 1`. -/
theorem compute_metrics_tbt_mean (start last : ℚ) (ts : List ℚ) :
    (compute_metrics start ts last).tbt =
      if ts.length ≤ 1 then 0
      else ((List.range' 1 (ts.length - 1)).map
          (fun i => ts.getD i 0 - ts.getD (i - 1) 0)).sum / ((ts.length : ℚ) - 1) := by
  unfold compute_metrics
  by_cases hle : ts.length ≤ 1
  · simp [hle]
  · simp only [hle, if_false]
    congr 1
    rw [List.length_map, List.length_range']
    have : 1 ≤ ts.length := by omega
    push_cast [Nat.cast_sub this]
    ring

/-- C2: for every `start`, `end` and `timestamps`, `compute_metrics`
returns `ttft` (`time_to_first_token`) equal to `timestamps[0] - start`
when `timestamps` is non-empty, and `0` when it is empty. -/
theorem compute_metrics_ttft (start last : ℚ) (ts : List ℚ) :
    (compute_metrics start ts last).ttft =
      match ts with
      | [] => 0
      | t0 :: _ => t0 - start := by
  cases ts <;> simp [compute_metrics]

/-- C3: for every `start`, `end` and `timestamps`, `compute_metrics`
returns `token_count` equal to the length of `timestamps` and
`total_latency` equal to `end - start`. -/
theorem compute_metrics_count_total (start last : ℚ) (ts : List ℚ) :
    (compute_metrics start ts last).token_count = ts.length ∧
      (compute_metrics start ts last).total_latency = last - start :=
  ⟨rfl, rfl⟩

/-- C4: `compute_metrics` is total: on every input the guarded variant,
which fails exactly where the Python code would divide by zero, succeeds
and returns the same value — the `token_count ≤ 1` branch guards the
mean's division. -/
theorem compute_metrics_total (start last : ℚ) (ts : List ℚ) :
    compute_metrics_checked start ts last = some (compute_metrics start ts last) := by
  unfold compute_metrics_checked compute_metrics checkedDiv
  by_cases hle : ts.length ≤ 1
  · simp [hle]
  · have hlen : ((List.range' 1 (ts.length - 1)).map
        (fun i => ts.getD i 0 - ts.getD (i - 1) 0)).length = ts.length - 1 := by
      rw [List.length_map, List.length_range']
    have hne : (ts.length - 1 : ℕ) ≠ 0 := by omega
    simp [hle, hlen, hne, Option.map]

/-- C5 counterexample: the §3 constraints (non-decreasing timestamps,
`end ≥ start`, `end ≥` last timestamp) hold at `start = 5`,
`timestamps = [1]`, `end = 10`, yet `ttft = 1 - 5 = -4 < 0`: the
constraints never relate `start` to the timestamps. -/
theorem compute_metrics_nonneg_cex :
    List.Chain' (· ≤ ·) [(1 : ℚ)] ∧ (5 : ℚ) ≤ 10 ∧
      (∀ h : [(1 : ℚ)] ≠ [], [(1 : ℚ)].getLast h ≤ 10) ∧
      ¬ (0 ≤ (compute_metrics 5 [(1 : ℚ)] 10).ttft ∧
          0 ≤ (compute_metrics 5 [(1 : ℚ)] 10).tbt ∧
          0 ≤ (compute_metrics 5 [(1 : ℚ)] 10).total_latency ∧
          0 ≤ ((compute_metrics 5 [(1 : ℚ)] 10).token_count : ℤ)) := by
  refine ⟨by simp, by norm_num, fun h => by show (1 : ℚ) ≤ 10; norm_num, ?_⟩
  intro hcl
  exact absurd hcl.1 (by norm_num [compute_metrics])

/-- C5 amended: under the §3 constraints together with
`start ≤ timestamps[0]` when `timestamps` is non-empty, all four output
fields of `compute_metrics` are nonnegative. -/
theorem compute_metrics_nonneg (start last : ℚ) (ts : List ℚ)
    (hchain : List.Chain' (· ≤ ·) ts)
    (hse : start ≤ last)
    (hlast : ∀ h : ts ≠ [], ts.getLast h ≤ last)
    (hfirst : ∀ h : ts ≠ [], start ≤ ts.head h) :
    0 ≤ (compute_metrics start ts last).ttft ∧
      0 ≤ (compute_metrics start ts last).tbt ∧
      0 ≤ (compute_metrics start ts last).total_latency ∧
      0 ≤ ((compute_metrics start ts last).token_count : ℤ) := by
  refine ⟨?_, tbt_nonneg start last ts hchain, ?_, Int.natCast_nonneg _⟩
  · cases ts with
    | nil => simp [compute_metrics]
    | cons a l =>
        have h1 := hfirst (by simp)
        simp only [List.head_cons] at h1
        have h2 : (compute_metrics start (a :: l) last).ttft = a - start := by
          simp [compute_metrics]
        rw [h2]
        exact sub_nonneg.mpr h1
  · have h2 : (compute_metrics start ts last).total_latency = last - start := rfl
    rw [h2]
    exact sub_nonneg.mpr hse

/-- C5 witness: the amended statement at `start = 0`,
`timestamps = [1, 3, 6]`, `end = 7`. -/
theorem compute_metrics_nonneg_holds :
    0 ≤ (compute_metrics 0 [(1 : ℚ), 3, 6] 7).ttft ∧
      0 ≤ (compute_metrics 0 [(1 : ℚ), 3, 6] 7).tbt ∧
      0 ≤ (compute_metrics 0 [(1 : ℚ), 3, 6] 7).total_latency ∧
      0 ≤ ((compute_metrics 0 [(1 : ℚ), 3, 6] 7).token_count : ℤ) :=
  compute_metrics_nonneg 0 7 [1, 3, 6]
    (by norm_num [List.chain'_cons, List.chain'_singleton]) (by norm_num)
    (fun h => by show (6 : ℚ) ≤ 7; norm_num)
    (fun h => by show (0 : ℚ) ≤ 1; norm_num)

/-- C6 counterexample: with empty `timestamps` the hypothesis about the
last element is vacuous, so `start = 1`, `timestamps = []`, `end = 0`
satisfies the claim's hypotheses, yet
`total_latency = -1 < 0 = time_to_first_token`. -/
theorem compute_metrics_monotone_cex :
    List.Chain' (· ≤ ·) ([] : List ℚ) ∧
      (∀ h : ([] : List ℚ) ≠ [], ([] : List ℚ).getLast h ≤ (0 : ℚ)) ∧
      ¬ (0 ≤ (compute_metrics 1 ([] : List ℚ) 0).tbt ∧
          (compute_metrics 1 ([] : List ℚ) 0).ttft ≤
            (compute_metrics 1 ([] : List ℚ) 0).total_latency) := by
  refine ⟨by simp, fun h => absurd rfl h, ?_⟩
  intro hcl
  exact absurd hcl.2 (by norm_num [compute_metrics])

/-- C6 amended: if `timestamps` is non-decreasing, `end ≥` its last
element when it is non-empty, and additionally `end ≥ start` (which the
claim needs when `timestamps` is empty), then `mean_inter_token_gap ≥ 0`
and `total_latency ≥ time_to_first_token`. -/
theorem compute_metrics_monotone_invariant (start last : ℚ) (ts : List ℚ)
    (hchain : List.Chain' (· ≤ ·) ts)
    (hlast : ∀ h : ts ≠ [], ts.getLast h ≤ last)
    (hse : start ≤ last) :
    0 ≤ (compute_metrics start ts last).tbt ∧
      (compute_metrics start ts last).ttft ≤
        (compute_metrics start ts last).total_latency := by
  refine ⟨tbt_nonneg start last ts hchain, ?_⟩
  cases ts with
  | nil =>
      have h1 : (compute_metrics start [] last).ttft = 0 := by simp [compute_metrics]
      have h2 : (compute_metrics start [] last).total_latency = last - start := rfl
      rw [h1, h2]
      exact sub_nonneg.mpr hse
  | cons a l =>
      have hal : a ≤ (a :: l).getLast (by simp) := chain'_head_le_getLast a l hchain
      have h3 : a ≤ last := le_trans hal (hlast (by simp))
      have h1 : (compute_metrics start (a :: l) last).ttft = a - start := by
        simp [compute_metrics]
      have h2 : (compute_metrics start (a :: l) last).total_latency = last - start := rfl
      rw [h1, h2]
      exact sub_le_sub_right h3 start

/-- C6 witness: the amended statement at `start = 0`,
`timestamps = [2, 4]`, `end = 9`. -/
theorem compute_metrics_monotone_holds :
    0 ≤ (compute_metrics 0 [(2 : ℚ), 4] 9).tbt ∧
      (compute_metrics 0 [(2 : ℚ), 4] 9).ttft ≤
        (compute_metrics 0 [(2 : ℚ), 4] 9).total_latency :=
  compute_metrics_monotone_invariant 0 9 [2, 4]
    (by norm_num [List.chain'_cons, List.chain'_singleton])
    (fun h => by show (4 : ℚ) ≤ 9; norm_num) (by norm_num)

/-- C7: when `OPENAI_API_KEY` is unset, `measure_latency` fails with the
configuration error and its non-empty human-readable message, whatever
timing data the request would have produced (so before any request is
used), and that message is the only error the program itself ever
raises. -/
theorem measure_latency_missing_key (env : String → Option String)
    (henv : env "OPENAI_API_KEY" = none) :
    (∀ start timestamps last,
        measure_latency env start timestamps last =
          Except.error "OPENAI_API_KEY environment variable is not set.") ∧
      "OPENAI_API_KEY environment variable is not set." ≠ "" ∧
      (∀ (env2 : String → Option String) (s : ℚ) (ts : List ℚ) (l : ℚ) (e : String),
        measure_latency env2 s ts l = Except.error e →
          e = "OPENAI_API_KEY environment variable is not set.") := by
  refine ⟨?_, by decide, ?_⟩
  · intro s ts l
    simp [measure_latency, henv, pyFalsy]
  · intro env2 s ts l e he
    unfold measure_latency at he
    by_cases hp : pyFalsy (env2 "OPENAI_API_KEY")
    · rw [if_pos hp] at he
      injection he with h
      exact h.symm
    · rw [if_neg hp] at he
      exact absurd he (by simp)

/-- C7 witness: with an environment providing no variables at all, the
call at concrete timing data yields exactly the configuration error. -/
theorem measure_latency_missing_key_witness :
    measure_latency (fun _ => none) 0 [1] 2 =
      Except.error "OPENAI_API_KEY environment variable is not set." :=
  (measure_latency_missing_key (fun _ => none) rfl).1 0 [1] 2

/-- C8: `explain_apache_pinot` takes no input and is a constant of the
embedding, so every call returns the same string independent of call
count and environment; that string is non-empty. -/
theorem explain_apache_pinot_nonempty : explain_apache_pinot ≠ "" := by
  decide

/-- C9: for `timestamps` of length at least `2`, the mean inter-token gap
telescopes to `(timestamps[n-1] - timestamps[0]) / (n - 1)`. -/
theorem compute_metrics_tbt_telescopes (start last : ℚ) (ts : List ℚ)
    (h : 2 ≤ ts.length) :
    (compute_metrics start ts last).tbt =
      (ts.getD (ts.length - 1) 0 - ts.getD 0 0) / ((ts.length : ℚ) - 1) := by
  have hle : ¬ ts.length ≤ 1 := by omega
  unfold compute_metrics
  simp only [hle, if_false]
  rw [sum_range'_sub (fun i => ts.getD i 0) (ts.length - 1)]
  congr 1
  rw [List.length_map, List.length_range']
  push_cast [Nat.cast_sub (show 1 ≤ ts.length by omega)]
  ring

/-- C9 witness: at `timestamps = [1, 3, 6]` the mean gap is
`(6 - 1) / 2`. -/
theorem compute_metrics_tbt_telescopes_witness :
    (compute_metrics 0 [(1 : ℚ), 3, 6] 7).tbt =
      ([(1 : ℚ), 3, 6].getD ([(1 : ℚ), 3, 6].length - 1) 0 -
          [(1 : ℚ), 3, 6].getD 0 0) /
        (([(1 : ℚ), 3, 6].length : ℚ) - 1) :=
  compute_metrics_tbt_telescopes 0 7 [1, 3, 6] (by norm_num)

/-- C10: when `OPENAI_API_KEY` is set to the empty string,
`measure_latency` raises the same configuration error as when it is
unset: the Python check `if not api_key` rejects any falsy value, not
only absence. -/
theorem measure_latency_empty_key (env : String → Option String)
    (henv : env "OPENAI_API_KEY" = some "") :
    ∀ start timestamps last,
      measure_latency env start timestamps last =
        Except.error "OPENAI_API_KEY environment variable is not set." := by
  intro s ts l
  simp [measure_latency, henv, pyFalsy]

/-- C10 witness: an environment mapping every variable to the empty
string triggers the configuration error at concrete timing data. -/
theorem measure_latency_empty_key_witness :
    measure_latency (fun _ => some "") 0 [1] 2 =
      Except.error "OPENAI_API_KEY environment variable is not set." :=
  measure_latency_empty_key (fun _ => some "") rfl 0 [1] 2

end AvHome
